import Mathlib

/-!
Shallow embedding of the game-population workflow of the repository:
the feed fetcher `fetchAggregatedTopGames` (utils/fetch_aggregated_top_games.js)
and the `POST /api/games/populate` route handler (the population orchestrator,
including its dedup filter), together with theorems checking the specified
properties against these definitions.
-/

/-- A JSON value, as produced by parsing a feed response body. -/
inductive JValue where
  | jnull : JValue
  | jbool : Bool → JValue
  | jnum : Int → JValue
  | jstr : String → JValue
  | jarr : List JValue → JValue
  | jobj : List (String × JValue) → JValue

/-- Whether a JSON value is an array (the `Array.isArray(data)` check). -/
def JValue.isArr : JValue → Bool
  | .jarr _ => true
  | _ => false

/-- Elements contributed by one step of `acc.concat(group)`: a JS
`Array.prototype.concat` spreads an array argument one level, and appends a
non-array argument as a single element. -/
def concatElem : JValue → List JValue
  | .jarr xs => xs
  | v => [v]

/-- Errors thrown by the fetcher: a non-ok HTTP status (`HTTP error! Status: n`),
a body that `response.json()` cannot parse, or a parsed body that is not an
array (`Unexpected JSON structure: expected an array`). -/
inductive FetchError where
  | httpError : Nat → FetchError
  | parseError : FetchError
  | malformedResponse : FetchError
  deriving Repr, DecidableEq

/-- An HTTP response as observed by the fetcher: its status code and the
outcome of parsing its body as JSON (`response.json()`). -/
structure HttpResponse where
  status : Nat
  jsonBody : Except Unit JValue

/-- The `response.ok` property of the fetch API: status in the range 200..299. -/
def responseOk (status : Nat) : Bool :=
  decide (200 ≤ status) && decide (status ≤ 299)

/-- Embedding of `fetchAggregatedTopGames` (utils/fetch_aggregated_top_games.js):
throw on a non-ok status, parse the body, require a top-level array, and
flatten via `data.reduce((acc, group) => acc.concat(group), [])`. -/
def fetchAggregatedTopGames (resp : HttpResponse) : Except FetchError (List JValue) :=
  if !responseOk resp.status then
    .error (.httpError resp.status)
  else
    match resp.jsonBody with
    | .error _ => .error .parseError
    | .ok data =>
      match data with
      | .jarr groups => .ok (groups.foldl (fun acc g => acc ++ concatElem g) [])
      | _ => .error .malformedResponse

lemma foldl_concatElem (gs : List (List JValue)) (acc : List JValue) :
    (gs.map JValue.jarr).foldl (fun acc g => acc ++ concatElem g) acc = acc ++ gs.flatten := by
  induction gs generalizing acc with
  | nil => simp
  | cons g gs ih =>
    rw [List.map_cons, List.foldl_cons, ih, List.flatten_cons, ← List.append_assoc]
    rfl

/-- Claim C3: for every response whose body parses to a valid nested array
(array of arrays), the feed fetcher returns the concatenation of the groups in
order, whose length is the sum of the inner-array lengths. -/
theorem fetch_flattens_nested_arrays (status : Nat) (gs : List (List JValue))
    (hok : responseOk status = true) :
    fetchAggregatedTopGames ⟨status, .ok (.jarr (gs.map JValue.jarr))⟩ = .ok gs.flatten ∧
    gs.flatten.length = (gs.map List.length).sum := by
  constructor
  · simp [fetchAggregatedTopGames, hok, foldl_concatElem]
  · exact List.length_flatten gs

/-- Witness for `fetch_flattens_nested_arrays` at a concrete response. -/
theorem fetch_flattens_nested_arrays_witness :
    fetchAggregatedTopGames
        ⟨200, .ok (.jarr [.jarr [.jnum 1, .jnum 2], .jarr [.jnum 3]])⟩ =
      .ok [.jnum 1, .jnum 2, .jnum 3] :=
  (fetch_flattens_nested_arrays 200 [[.jnum 1, .jnum 2], [.jnum 3]] (by decide)).1

/-- Claim C8: for every response with a non-2xx status, the fetcher fails with
an HTTP error carrying the status code, regardless of the response body (so
before any attempt to parse the body as JSON). -/
theorem fetch_http_error (status : Nat) (body : Except Unit JValue)
    (h : responseOk status = false) :
    fetchAggregatedTopGames ⟨status, body⟩ = .error (.httpError status) ∧
    (∀ body' : Except Unit JValue,
      fetchAggregatedTopGames ⟨status, body'⟩ = .error (.httpError status)) := by
  refine ⟨?_, fun body' => ?_⟩ <;> simp [fetchAggregatedTopGames, h]

/-- Witness for `fetch_http_error` at status 404 with an unparseable body. -/
theorem fetch_http_error_witness :
    fetchAggregatedTopGames ⟨404, .error ()⟩ = .error (.httpError 404) :=
  (fetch_http_error 404 (.error ()) (by decide)).1

/-- Counterexample to claim C5 as stated: the body `[1]` is a JSON value that
is not an array of arrays, yet the fetcher succeeds (returning `[1]`) instead
of failing with the malformed-response error. -/
theorem fetch_inner_non_array_accepted :
    fetchAggregatedTopGames ⟨200, .ok (.jarr [.jnum 1])⟩ = .ok [.jnum 1] := by
  rfl

/-- Claim C5 (amended): given an ok status and a parseable body, the fetcher
fails with the malformed-response error exactly when the top-level JSON value
is not an array; inner non-array elements are not validated (they are appended
to the output as single records). -/
theorem fetch_malformed_iff_top_not_array (status : Nat) (v : JValue)
    (hok : responseOk status = true) :
    fetchAggregatedTopGames ⟨status, .ok v⟩ = .error .malformedResponse ↔
      v.isArr = false := by
  cases v <;> simp [fetchAggregatedTopGames, hok, JValue.isArr]

/-- Witness for `fetch_malformed_iff_top_not_array` at a concrete non-array body. -/
theorem fetch_malformed_iff_top_not_array_witness :
    fetchAggregatedTopGames ⟨200, .ok (.jnum 7)⟩ = .error .malformedResponse :=
  (fetch_malformed_iff_top_not_array 200 (.jnum 7) (by decide)).mpr rfl

/-- A primitive JS value carried by a feed record field such as `app_id`
(numeric or string, per the feed data model). -/
inductive JsPrim where
  | num : Int → JsPrim
  | str : String → JsPrim
  deriving Repr, DecidableEq

/-- The `.toString()` of a primitive value, as used for `game.app_id.toString()`. -/
def JsPrim.jsToString : JsPrim → String
  | .num n => toString n
  | .str s => s

/-- A raw game record from a feed, with the fields the populate handler reads:
`publisher_id`, `name`, `os`, `app_id`, `bundle_id`, `version`. `none` stands
for an absent (or null) field. -/
structure RawGameRecord where
  publisher_id : Option JsPrim
  name : Option String
  os : Option String
  app_id : Option JsPrim
  bundle_id : Option String
  version : Option String
  deriving Repr, DecidableEq

/-- A persisted Game entity as built by the populate handler. -/
structure GameEntity where
  publisherId : Option JsPrim
  name : Option String
  platform : String
  storeId : String
  bundleId : Option String
  appVersion : String
  isPublished : Bool
  deriving Repr, DecidableEq

/-- JS truthiness of a `bundle_id` value: absent (undefined/null) and the empty
string are falsy, every other string is truthy. -/
def bundleTruthy : Option String → Bool
  | some s => !(s == "")
  | none => false

/-- The filter predicate of the populate handler:
`game.bundle_id && !existingBundleIds.has(game.bundle_id)`. `existing` is the
set of `bundleId` values of the rows returned by the existence lookup. -/
def keepRecord (existing : List (Option String)) (r : RawGameRecord) : Bool :=
  bundleTruthy r.bundle_id && !(existing.contains r.bundle_id)

/-- The map step of the populate handler, building a GameEntity from a raw
record. `game.app_id.toString()` throws a TypeError when `app_id` is absent,
modelled as the error case. -/
def mapRecord (r : RawGameRecord) : Except Unit GameEntity :=
  match r.app_id with
  | none => .error ()
  | some a =>
    .ok ⟨r.publisher_id, r.name,
      if r.os = some "ios" then "ios" else "android",
      a.jsToString, r.bundle_id, r.version.getD "", true⟩

/-- Left-to-right mapping of `mapRecord` over a list, propagating the first
thrown error (the behaviour of `Array.prototype.map` with a throwing callback). -/
def mapRecords : List RawGameRecord → Except Unit (List GameEntity)
  | [] => .ok []
  | r :: rs =>
    match mapRecord r with
    | .error e => .error e
    | .ok g =>
      match mapRecords rs with
      | .error e => .error e
      | .ok gs => .ok (g :: gs)

/-- The dedup filter of the populate handler:
`topGames.filter(game => game.bundle_id && !existingBundleIds.has(game.bundle_id)).map(...)`. -/
def dedupFilter (records : List RawGameRecord) (existing : List (Option String)) :
    Except Unit (List GameEntity) :=
  mapRecords (records.filter (keepRecord existing))

lemma mapRecord_bundleId {r : RawGameRecord} {e : GameEntity}
    (h : mapRecord r = .ok e) : e.bundleId = r.bundle_id := by
  cases ha : r.app_id with
  | none => simp [mapRecord, ha] at h
  | some a =>
    simp only [mapRecord, ha] at h
    cases h
    rfl

lemma mapRecords_ok_mem {l : List RawGameRecord} {es : List GameEntity}
    (h : mapRecords l = .ok es) {e : GameEntity} (he : e ∈ es) :
    ∃ r ∈ l, mapRecord r = .ok e := by
  induction l generalizing es with
  | nil =>
    simp [mapRecords] at h
    subst h
    cases he
  | cons r rs ih =>
    simp only [mapRecords] at h
    cases hr : mapRecord r with
    | error e' => rw [hr] at h; cases h
    | ok g =>
      rw [hr] at h
      cases hrs : mapRecords rs with
      | error e' => rw [hrs] at h; cases h
      | ok gs =>
        rw [hrs] at h
        cases h
        rcases List.mem_cons.mp he with rfl | hmem
        · exact ⟨r, List.mem_cons_self r rs, hr⟩
        · obtain ⟨r', hr', hmap⟩ := ih hrs hmem
          exact ⟨r', List.mem_cons_of_mem r hr', hmap⟩

lemma mapRecords_mem_ok {l : List RawGameRecord} {es : List GameEntity}
    (h : mapRecords l = .ok es) {r : RawGameRecord} (hr : r ∈ l) :
    ∃ e ∈ es, mapRecord r = .ok e := by
  induction l generalizing es with
  | nil => cases hr
  | cons r' rs ih =>
    simp only [mapRecords] at h
    cases hr' : mapRecord r' with
    | error e' => rw [hr'] at h; cases h
    | ok g =>
      rw [hr'] at h
      cases hrs : mapRecords rs with
      | error e' => rw [hrs] at h; cases h
      | ok gs =>
        rw [hrs] at h
        cases h
        rcases List.mem_cons.mp hr with rfl | hmem
        · exact ⟨g, List.mem_cons_self g gs, hr'⟩
        · obtain ⟨e, he, hmap⟩ := ih hrs hmem
          exact ⟨e, List.mem_cons_of_mem g he, hmap⟩

/-- Claim C1: the dedup filter never emits an entity whose bundle id is
empty/absent or present among the existing keys; a record failing that
condition is silently dropped — removing it changes neither the output nor the
error behaviour. -/
theorem dedup_never_emits_known_or_missing_bundle (records : List RawGameRecord)
    (existing : List (Option String)) (es : List GameEntity)
    (h : dedupFilter records existing = .ok es) :
    (∀ e ∈ es, bundleTruthy e.bundleId = true ∧ existing.contains e.bundleId = false) ∧
    (∀ r : RawGameRecord, keepRecord existing r = false →
      dedupFilter (r :: records) existing = dedupFilter records existing) := by
  constructor
  · intro e he
    obtain ⟨r, hrmem, hmap⟩ := mapRecords_ok_mem h he
    obtain ⟨-, hkeep⟩ := List.mem_filter.mp hrmem
    rw [mapRecord_bundleId hmap]
    simpa [keepRecord] using hkeep
  · intro r hr
    simp [dedupFilter, List.filter_cons, hr]

/-- Witness for `dedup_never_emits_known_or_missing_bundle` on a concrete run:
a record with a fresh bundle id is emitted with a truthy, unknown bundle id,
and a record with a known bundle id is dropped without error. -/
theorem dedup_never_emits_known_or_missing_bundle_witness :
    (bundleTruthy (GameEntity.bundleId ⟨none, some "G1", "ios", "1", some "b1", "", true⟩) = true ∧
      List.contains [some "b0"]
        (GameEntity.bundleId ⟨none, some "G1", "ios", "1", some "b1", "", true⟩) = false) ∧
    dedupFilter [⟨none, none, none, none, some "b0", none⟩,
        ⟨none, some "G1", some "ios", some (.num 1), some "b1", none⟩] [some "b0"] =
      dedupFilter [⟨none, some "G1", some "ios", some (.num 1), some "b1", none⟩] [some "b0"] := by
  have h := dedup_never_emits_known_or_missing_bundle
    [⟨none, some "G1", some "ios", some (.num 1), some "b1", none⟩] [some "b0"]
    [⟨none, some "G1", "ios", "1", some "b1", "", true⟩] (by rfl)
  exact ⟨h.1 _ (by simp), h.2 ⟨none, none, none, none, some "b0", none⟩ (by rfl)⟩

/-- Claim C2: every entity emitted by the dedup filter comes from an input
record, with platform "ios" exactly when the record's os is "ios" and
"android" otherwise, storeId the string form of the record's app_id,
appVersion the record's version or "" when absent, and isPublished true. -/
theorem dedup_entity_shape (records : List RawGameRecord)
    (existing : List (Option String)) (es : List GameEntity)
    (h : dedupFilter records existing = .ok es) :
    ∀ e ∈ es, ∃ r ∈ records,
      mapRecord r = .ok e ∧
      e.platform = (if r.os = some "ios" then "ios" else "android") ∧
      (∃ a, r.app_id = some a ∧ e.storeId = a.jsToString) ∧
      e.appVersion = r.version.getD "" ∧
      e.isPublished = true := by
  intro e he
  obtain ⟨r, hrmem, hmap⟩ := mapRecords_ok_mem h he
  obtain ⟨hrec, -⟩ := List.mem_filter.mp hrmem
  refine ⟨r, hrec, hmap, ?_⟩
  cases ha : r.app_id with
  | none => simp [mapRecord, ha] at hmap
  | some a =>
    simp only [mapRecord, ha] at hmap
    cases hmap
    exact ⟨rfl, ⟨a, rfl, rfl⟩, rfl, rfl⟩

/-- Witness for `dedup_entity_shape` on a concrete run with an android record
carrying a string app_id and no version. -/
theorem dedup_entity_shape_witness :
    ∃ r ∈ [(⟨some (.num 9), some "G2", some "Android", some (.str "com.g2"), some "b2", none⟩ :
        RawGameRecord)],
      mapRecord r = .ok ⟨some (.num 9), some "G2", "android", "com.g2", some "b2", "", true⟩ ∧
      GameEntity.platform ⟨some (.num 9), some "G2", "android", "com.g2", some "b2", "", true⟩ =
        (if r.os = some "ios" then "ios" else "android") ∧
      (∃ a, r.app_id = some a ∧
        GameEntity.storeId ⟨some (.num 9), some "G2", "android", "com.g2", some "b2", "", true⟩ =
          a.jsToString) ∧
      GameEntity.appVersion ⟨some (.num 9), some "G2", "android", "com.g2", some "b2", "", true⟩ =
        r.version.getD "" ∧
      GameEntity.isPublished ⟨some (.num 9), some "G2", "android", "com.g2", some "b2", "", true⟩ =
        true :=
  dedup_entity_shape
    [⟨some (.num 9), some "G2", some "Android", some (.str "com.g2"), some "b2", none⟩] []
    [⟨some (.num 9), some "G2", "android", "com.g2", some "b2", "", true⟩] (by rfl)
    ⟨some (.num 9), some "G2", "android", "com.g2", some "b2", "", true⟩ (by simp)

/-- An external call made by the populate handler: an HTTP GET of a feed URL,
the existence lookup `Game.findAll({attributes: ['bundleId'], where: ...})`,
or the batch insert `Game.bulkCreate(newGames)`. -/
inductive Effect where
  | netGet : String → Effect
  | dbFindExisting : List (Option String) → Effect
  | dbBulkInsert : List GameEntity → Effect
  deriving Repr, DecidableEq

/-- An HTTP result sent by the populate handler: a 200 with a message body, a
201 with an added count, or a 500 with an error body. -/
inductive PopulateResult where
  | ok200 : String → PopulateResult
  | created201 : Nat → PopulateResult
  | err500 : String → PopulateResult
  deriving Repr, DecidableEq

/-- The existence lookup: bundleId values of the stored rows whose bundleId is
among the requested ids (`findAll` restricted to the `bundleId` attribute). -/
def findExistingBundleIds (store : List GameEntity) (ids : List (Option String)) :
    List (Option String) :=
  (store.filter (fun g => ids.contains g.bundleId)).map (fun g => g.bundleId)

/-- JS truthiness of the `topGames` array: an array object is always truthy,
so the `if (!topGames)` guard in the handler is dead code. -/
def jsArrayTruthy : List RawGameRecord → Bool := fun _ => true

/-- Outcome of one populate request: the HTTP result sent, the store contents
afterwards, and the external calls made. -/
structure PopulateOutcome where
  result : PopulateResult
  store : List GameEntity
  effects : List Effect
  deriving Repr, DecidableEq

/-- Embedding of the `POST /api/games/populate` handler. `iosUrl`/`androidUrl`
are the environment values (absent when unset); `net` gives, per URL, the
outcome of `fetchAggregatedTopGames` on that feed, with successful outputs
already read as raw game records; `store` is the persisted Game table. -/
def populate (iosUrl androidUrl : Option String)
    (net : String → Except FetchError (List RawGameRecord))
    (store : List GameEntity) : PopulateOutcome :=
  match iosUrl, androidUrl with
  | some iu, some au =>
    if iu = "" ∨ au = "" then
      ⟨.err500 "Missing IOS_JSON_URL or ANDROID_JSON_URL in .env", store, []⟩
    else
      match net iu, net au with
      | .ok iosGames, .ok androidGames =>
        let topGames := iosGames ++ androidGames
        if !jsArrayTruthy topGames then
          ⟨.ok200 "No new games to add (no data available).", store,
            [.netGet iu, .netGet au]⟩
        else
          let ids := topGames.map (fun g => g.bundle_id)
          match dedupFilter topGames (findExistingBundleIds store ids) with
          | .error _ =>
            ⟨.err500 "Failed to populate database", store,
              [.netGet iu, .netGet au, .dbFindExisting ids]⟩
          | .ok newGames =>
            if newGames.length = 0 then
              ⟨.ok200 "No new games to add.", store,
                [.netGet iu, .netGet au, .dbFindExisting ids]⟩
            else
              ⟨.created201 newGames.length, store ++ newGames,
                [.netGet iu, .netGet au, .dbFindExisting ids, .dbBulkInsert newGames]⟩
      | _, _ => ⟨.err500 "Failed to populate database", store, [.netGet iu, .netGet au]⟩
  | _, _ => ⟨.err500 "Missing IOS_JSON_URL or ANDROID_JSON_URL in .env", store, []⟩

/-- Claim C9: when either configured source URL is unset, populate returns the
configuration-error 500 result, leaves the store unchanged, and makes no
external call at all (no network call, no persistence call). -/
theorem populate_config_error (iosUrl androidUrl : Option String)
    (net : String → Except FetchError (List RawGameRecord)) (store : List GameEntity)
    (h : iosUrl = none ∨ androidUrl = none) :
    populate iosUrl androidUrl net store =
      ⟨.err500 "Missing IOS_JSON_URL or ANDROID_JSON_URL in .env", store, []⟩ := by
  rcases h with rfl | rfl
  · cases androidUrl <;> rfl
  · cases iosUrl <;> rfl

/-- A concrete network stub used by the witness of `populate_config_error`. -/
def netStub : String → Except FetchError (List RawGameRecord) :=
  fun _ => .ok []

/-- Witness for `populate_config_error` with the iOS URL unset. -/
theorem populate_config_error_witness :
    populate none (some "https://android.example") netStub [] =
      ⟨.err500 "Missing IOS_JSON_URL or ANDROID_JSON_URL in .env", [], []⟩ :=
  populate_config_error none (some "https://android.example") netStub [] (Or.inl rfl)

/-- Claim C7: when either feed fetch fails, populate returns the single generic
500 failure result, discards any succeeding feed's output, leaves the store
unchanged, and makes no persistence call (neither the existence lookup nor the
insert appears among the effects). -/
theorem populate_fetch_failure (iu au : String)
    (net : String → Except FetchError (List RawGameRecord)) (store : List GameEntity)
    (hiu : iu ≠ "") (hau : au ≠ "")
    (h : (∃ e, net iu = .error e) ∨ (∃ e, net au = .error e)) :
    populate (some iu) (some au) net store =
      ⟨.err500 "Failed to populate database", store, [.netGet iu, .netGet au]⟩ := by
  have hcond : ¬(iu = "" ∨ au = "") := by
    rintro (rfl | rfl)
    · exact hiu rfl
    · exact hau rfl
  rcases h with ⟨e, he⟩ | ⟨e, he⟩ <;>
    cases hni : net iu <;> cases hna : net au <;>
    simp_all [populate]

/-- A concrete network stub for the witness of `populate_fetch_failure`: the
iOS feed 404s while the android feed succeeds. -/
def netOneFailure : String → Except FetchError (List RawGameRecord) :=
  fun u => if u = "ios-url" then .error (.httpError 404)
    else .ok [⟨some (.num 9), some "G1", some "android", some (.num 5), some "b1", none⟩]

/-- Witness for `populate_fetch_failure`: the iOS feed 404s, the succeeding
android feed is discarded and no persistence call is made. -/
theorem populate_fetch_failure_witness :
    populate (some "ios-url") (some "android-url") netOneFailure [] =
      ⟨.err500 "Failed to populate database", [],
        [.netGet "ios-url", .netGet "android-url"]⟩ :=
  populate_fetch_failure "ios-url" "android-url" netOneFailure []
    (by decide) (by decide) (Or.inl ⟨.httpError 404, by rfl⟩)

/-- Claim C6: when both fetches succeed and the dedup filter produces the
sequence `es`: if `es` is empty the handler returns the 200 no-op message and
performs no insert; otherwise it persists all of `es` in one batch insert and
returns 201 with the count added. -/
theorem populate_success_branches (iu au : String)
    (net : String → Except FetchError (List RawGameRecord)) (store : List GameEntity)
    (ig ag : List RawGameRecord) (es : List GameEntity)
    (hiu : iu ≠ "") (hau : au ≠ "")
    (hni : net iu = .ok ig) (hna : net au = .ok ag)
    (hd : dedupFilter (ig ++ ag)
        (findExistingBundleIds store ((ig ++ ag).map (fun g => g.bundle_id))) = .ok es) :
    populate (some iu) (some au) net store =
      if es.length = 0 then
        ⟨.ok200 "No new games to add.", store,
          [.netGet iu, .netGet au, .dbFindExisting ((ig ++ ag).map (fun g => g.bundle_id))]⟩
      else
        ⟨.created201 es.length, store ++ es,
          [.netGet iu, .netGet au, .dbFindExisting ((ig ++ ag).map (fun g => g.bundle_id)),
            .dbBulkInsert es]⟩ := by
  have hcond : ¬(iu = "" ∨ au = "") := by
    rintro (rfl | rfl)
    · exact hiu rfl
    · exact hau rfl
  simp only [populate, if_neg hcond, hni, hna, hd, jsArrayTruthy, Bool.not_true,
    Bool.false_eq_true, if_false]

/-- Witness for `populate_success_branches`: one fresh iOS record is inserted
and reported as one added game (the spec's scenario A). -/
theorem populate_success_branches_witness :
    populate (some "i") (some "a")
        (fun u => if u = "i" then
            .ok [⟨some (.num 9), some "G1", some "ios", some (.num 1), some "a1", none⟩]
          else .ok []) [] =
      ⟨.created201 1, [⟨some (.num 9), some "G1", "ios", "1", some "a1", "", true⟩],
        [.netGet "i", .netGet "a", .dbFindExisting [some "a1"], .dbBulkInsert
          [⟨some (.num 9), some "G1", "ios", "1", some "a1", "", true⟩]]⟩ := by
  have h := populate_success_branches "i" "a"
    (fun u => if u = "i" then
        .ok [⟨some (.num 9), some "G1", some "ios", some (.num 1), some "a1", none⟩]
      else .ok []) []
    [⟨some (.num 9), some "G1", some "ios", some (.num 1), some "a1", none⟩] []
    [⟨some (.num 9), some "G1", "ios", "1", some "a1", "", true⟩]
    (by decide) (by decide) (by rfl) (by rfl) (by rfl)
  simpa using h

/-- Claim C10: a raw record whose bundle id is non-empty and previously
unknown but whose app_id is absent makes the whole population run fail with
the generic 500 result (the mapping calls `app_id.toString()` unguarded); the
record is not silently dropped, the store is unchanged, and no insert happens. -/
theorem populate_missing_app_id_fails (iu au : String)
    (net : String → Except FetchError (List RawGameRecord)) (store : List GameEntity)
    (ig ag : List RawGameRecord) (r : RawGameRecord)
    (hiu : iu ≠ "") (hau : au ≠ "")
    (hni : net iu = .ok ig) (hna : net au = .ok ag)
    (hr : r ∈ ig ++ ag)
    (hb : bundleTruthy r.bundle_id = true)
    (hex : (findExistingBundleIds store ((ig ++ ag).map (fun g => g.bundle_id))).contains
        r.bundle_id = false)
    (happ : r.app_id = none) :
    populate (some iu) (some au) net store =
      ⟨.err500 "Failed to populate database", store,
        [.netGet iu, .netGet au, .dbFindExisting ((ig ++ ag).map (fun g => g.bundle_id))]⟩ := by
  have hcond : ¬(iu = "" ∨ au = "") := by
    rintro (rfl | rfl)
    · exact hiu rfl
    · exact hau rfl
  have hkeep : keepRecord
      (findExistingBundleIds store ((ig ++ ag).map (fun g => g.bundle_id))) r = true := by
    unfold keepRecord
    rw [hb, hex]
    rfl
  have hrf : r ∈ (ig ++ ag).filter
      (keepRecord (findExistingBundleIds store ((ig ++ ag).map (fun g => g.bundle_id)))) :=
    List.mem_filter.mpr ⟨hr, hkeep⟩
  have herr : dedupFilter (ig ++ ag)
      (findExistingBundleIds store ((ig ++ ag).map (fun g => g.bundle_id))) = .error () := by
    cases hd : dedupFilter (ig ++ ag)
        (findExistingBundleIds store ((ig ++ ag).map (fun g => g.bundle_id))) with
    | error e => cases e; rfl
    | ok es =>
      obtain ⟨e, -, hmap⟩ := mapRecords_mem_ok hd hrf
      simp [mapRecord, happ] at hmap
  simp only [populate, if_neg hcond, hni, hna, herr, jsArrayTruthy, Bool.not_true,
    Bool.false_eq_true, if_false]

/-- Witness for `populate_missing_app_id_fails`: a record with fresh bundle id
"x" and no app_id makes the run 500 instead of being dropped. -/
theorem populate_missing_app_id_fails_witness :
    populate (some "i") (some "a")
        (fun u => if u = "i" then .ok [⟨none, some "B", none, none, some "x", none⟩]
          else .ok []) [] =
      ⟨.err500 "Failed to populate database", [],
        [.netGet "i", .netGet "a", .dbFindExisting [some "x"]]⟩ := by
  have h := populate_missing_app_id_fails "i" "a"
    (fun u => if u = "i" then .ok [⟨none, some "B", none, none, some "x", none⟩]
      else .ok []) []
    [⟨none, some "B", none, none, some "x", none⟩] []
    ⟨none, some "B", none, none, some "x", none⟩
    (by decide) (by decide) (by rfl) (by rfl) (by simp) (by rfl) (by rfl) rfl
  simpa using h

lemma findExistingBundleIds_append (s t : List GameEntity) (ids : List (Option String)) :
    findExistingBundleIds (s ++ t) ids =
      findExistingBundleIds s ids ++ findExistingBundleIds t ids := by
  simp [findExistingBundleIds]

lemma keepRecord_false_after_insert (topGames : List RawGameRecord)
    (store es : List GameEntity)
    (hd : dedupFilter topGames
        (findExistingBundleIds store (topGames.map (fun g => g.bundle_id))) = .ok es)
    (r : RawGameRecord) (hr : r ∈ topGames) :
    keepRecord
      (findExistingBundleIds (store ++ es) (topGames.map (fun g => g.bundle_id))) r = false := by
  cases hb : bundleTruthy r.bundle_id with
  | false =>
    unfold keepRecord
    rw [hb]
    rfl
  | true =>
    cases hc : (findExistingBundleIds store (topGames.map (fun g => g.bundle_id))).contains
        r.bundle_id with
    | true =>
      have hmem : r.bundle_id ∈
          findExistingBundleIds store (topGames.map (fun g => g.bundle_id)) :=
        List.elem_iff.mp hc
      have hct : (findExistingBundleIds (store ++ es)
          (topGames.map (fun g => g.bundle_id))).contains r.bundle_id = true := by
        refine List.elem_iff.mpr ?_
        rw [findExistingBundleIds_append]
        exact List.mem_append.mpr (Or.inl hmem)
      unfold keepRecord
      rw [hb, hct]
      rfl
    | false =>
      have hkeep : keepRecord
          (findExistingBundleIds store (topGames.map (fun g => g.bundle_id))) r = true := by
        unfold keepRecord
        rw [hb, hc]
        rfl
      have hrf : r ∈ topGames.filter
          (keepRecord (findExistingBundleIds store (topGames.map (fun g => g.bundle_id)))) :=
        List.mem_filter.mpr ⟨hr, hkeep⟩
      obtain ⟨e, he, hmap⟩ := mapRecords_mem_ok hd hrf
      have hbid : e.bundleId = r.bundle_id := mapRecord_bundleId hmap
      have hidmem : r.bundle_id ∈ topGames.map (fun g => g.bundle_id) :=
        List.mem_map.mpr ⟨r, hr, rfl⟩
      have hemem : e ∈ es.filter
          (fun g => (topGames.map (fun g => g.bundle_id)).contains g.bundleId) := by
        refine List.mem_filter.mpr ⟨he, ?_⟩
        rw [hbid]
        exact List.elem_iff.mpr hidmem
      have hct : (findExistingBundleIds (store ++ es)
          (topGames.map (fun g => g.bundle_id))).contains r.bundle_id = true := by
        refine List.elem_iff.mpr ?_
        rw [findExistingBundleIds_append]
        refine List.mem_append.mpr (Or.inr ?_)
        exact List.mem_map.mpr ⟨e, hemem, hbid⟩
      unfold keepRecord
      rw [hb, hct]
      rfl

lemma dedupFilter_after_insert (topGames : List RawGameRecord) (store es : List GameEntity)
    (hd : dedupFilter topGames
        (findExistingBundleIds store (topGames.map (fun g => g.bundle_id))) = .ok es) :
    dedupFilter topGames
      (findExistingBundleIds (store ++ es) (topGames.map (fun g => g.bundle_id))) = .ok [] := by
  have hfil : topGames.filter
      (keepRecord (findExistingBundleIds (store ++ es)
        (topGames.map (fun g => g.bundle_id)))) = [] := by
    refine List.filter_eq_nil_iff.mpr ?_
    intro r hr
    rw [keepRecord_false_after_insert topGames store es hd r hr]
    exact Bool.false_ne_true
  unfold dedupFilter
  rw [hfil]
  rfl

/-- Claim C4 (amended): for any configuration, network behaviour and initial
store, running populate a second time right after a first run inserts zero new
entities: the store is unchanged and no batch insert is issued by the second
run; moreover, whenever the first run returned a success result (the no-op
message or a created count), the second run returns the no-op message result. -/
theorem populate_idempotent (iosUrl androidUrl : Option String)
    (net : String → Except FetchError (List RawGameRecord)) (store : List GameEntity) :
    (populate iosUrl androidUrl net (populate iosUrl androidUrl net store).store).store =
      (populate iosUrl androidUrl net store).store ∧
    (∀ es, Effect.dbBulkInsert es ∉
      (populate iosUrl androidUrl net (populate iosUrl androidUrl net store).store).effects) ∧
    (∀ n, (populate iosUrl androidUrl net store).result = .created201 n →
      (populate iosUrl androidUrl net (populate iosUrl androidUrl net store).store).result =
        .ok200 "No new games to add.") ∧
    ((populate iosUrl androidUrl net store).result = .ok200 "No new games to add." →
      (populate iosUrl androidUrl net (populate iosUrl androidUrl net store).store).result =
        .ok200 "No new games to add.") := by
  cases iosUrl with
  | none => simp [populate]
  | some iu =>
    cases androidUrl with
    | none => simp [populate]
    | some au =>
      by_cases he : iu = "" ∨ au = ""
      · simp [populate, if_pos he]
      · cases hni : net iu with
        | error e => simp [populate, if_neg he, hni]
        | ok ig =>
          cases hna : net au with
          | error e => simp [populate, if_neg he, hni, hna]
          | ok ag =>
            cases hd : dedupFilter (ig ++ ag)
                (findExistingBundleIds store ((ig ++ ag).map fun g => g.bundle_id)) with
            | error e =>
              simp only [List.map_append] at hd
              simp [populate, if_neg he, hni, hna, hd, jsArrayTruthy]
            | ok es =>
              cases es with
              | nil =>
                simp only [List.map_append] at hd
                simp [populate, if_neg he, hni, hna, hd, jsArrayTruthy]
              | cons e0 es' =>
                have hd2 := dedupFilter_after_insert (ig ++ ag) store (e0 :: es') hd
                simp only [List.map_append] at hd hd2
                simp [populate, if_neg he, hni, hna, hd, hd2, jsArrayTruthy]

/-- A concrete network stub whose single record lacks `app_id`, used to refute
claim C4 as stated. -/
def netMissingAppId : String → Except FetchError (List RawGameRecord) :=
  fun _ => .ok [⟨none, some "B", none, none, some "x", none⟩]

/-- Counterexample to claim C4 as stated: both feeds return one record with
the fresh bundle id "x" but no app_id; the first run fails with the generic
500, and the second run over the same feed outputs and resulting store returns
that same 500 error — not the no-op message result (it does insert nothing). -/
theorem populate_idempotent_counterexample :
    (populate (some "i") (some "a") netMissingAppId
        (populate (some "i") (some "a") netMissingAppId []).store).result =
      .err500 "Failed to populate database" := by
  decide

/-- A concrete network stub for the witness of `populate_idempotent`. -/
def netFresh : String → Except FetchError (List RawGameRecord) :=
  fun u => if u = "i" then
      .ok [⟨some (.num 3), some "Gw", some "ios", some (.num 11), some "w1", some "1.0"⟩]
    else .ok []

/-- Witness for `populate_idempotent`: a first run adding one game followed by
a second run that returns the no-op message. -/
theorem populate_idempotent_witness :
    (populate (some "i") (some "a") netFresh []).result = .created201 1 ∧
    (populate (some "i") (some "a") netFresh
        (populate (some "i") (some "a") netFresh []).store).result =
      .ok200 "No new games to add." :=
  ⟨by decide, (populate_idempotent (some "i") (some "a") netFresh []).2.2.1 1 (by decide)⟩
